import Mathlib

/-!
Shallow embedding of `src/app.py` of the smartcal1 repository: a
weather-triggered task agent.  Timestamps are modelled as integers
(minutes); temperatures and thresholds as rationals.  The SQLite tables
`weather_logs` and `tasks` are modelled as in-memory lists together with
the AUTOINCREMENT counter.  Fallible Python code (a `ValueError` from
`int(...)`) is modelled with `Option`.
-/

namespace Smartcal

/-- A row of the `weather_logs` table:
`id INTEGER PRIMARY KEY AUTOINCREMENT, timestamp DATETIME DEFAULT
CURRENT_TIMESTAMP, temp REAL, condition_met INTEGER DEFAULT 0`. -/
structure Observation where
  id : Nat
  timestamp : Int
  temp : Rat
  condition_met : Nat
deriving Repr, DecidableEq

/-- The state of the `weather_logs` table plus its AUTOINCREMENT counter. -/
structure WeatherState where
  logs : List Observation
  next_log_id : Nat
deriving Repr, DecidableEq

def WeatherState.init : WeatherState := ⟨[], 1⟩

/-- The database write performed by `get_weather`:
`INSERT INTO weather_logs (temp) VALUES (?)` — `timestamp` takes the
current instant by `DEFAULT CURRENT_TIMESTAMP` and `condition_met`
takes `DEFAULT 0`. -/
def record_weather (s : WeatherState) (now : Int) (temp : Rat) : WeatherState :=
  { logs := s.logs ++
      [{ id := s.next_log_id, timestamp := now, temp := temp, condition_met := 0 }],
    next_log_id := s.next_log_id + 1 }

/-- The query inside `check_sustained_warmth`:
`SELECT COUNT(*) FROM weather_logs WHERE temp > ? AND timestamp > ?`
with parameters `(threshold, since)`. -/
def count_since (s : WeatherState) (threshold : Rat) (since : Int) : Nat :=
  (s.logs.filter
    (fun o => decide (threshold < o.temp) && decide (since < o.timestamp))).length

/-- `check_sustained_warmth`: `since = now - timedelta(minutes=30 * DURATION_CHECKS)`,
count the qualifying rows, and return `count >= DURATION_CHECKS`. -/
def check_sustained_warmth (s : WeatherState) (now : Int) (threshold : Rat)
    (duration_checks : Nat) : Bool :=
  let since : Int := now - 30 * (duration_checks : Int)
  let count := count_since s threshold since
  decide (duration_checks ≤ count)

/-- A whole run of weather recordings, one `(now, temp)` pair per
scheduled `check` invocation, starting from an empty `weather_logs`
table.  Only `get_weather` ever writes to `weather_logs`. -/
def runWeather (inputs : List (Int × Rat)) : WeatherState :=
  inputs.foldl (fun s p => record_weather s p.1 p.2) WeatherState.init

/-- Scenario state of §8: four readings `[52, 55, 60, 65]` recorded at
10-minute intervals inside the trailing 2-hour window before `now = 0`. -/
def scenarioAllWarm : WeatherState :=
  runWeather [(-40, 52), (-30, 55), (-20, 60), (-10, 65)]

/-- Scenario state of §8: readings `[52, 40, 60, 65]` at the same
instants — only three exceed the threshold 50. -/
def scenarioOneCold : WeatherState :=
  runWeather [(-40, 52), (-30, 40), (-20, 60), (-10, 65)]

/-- The predicate of claim C1/C5: the observation qualifies — value
strictly above `threshold` and timestamp strictly after `since`. -/
def qualifies (threshold : Rat) (since : Int) (o : Observation) : Prop :=
  threshold < o.temp ∧ since < o.timestamp

instance (threshold : Rat) (since : Int) (o : Observation) :
    Decidable (qualifies threshold since o) := by
  unfold qualifies; infer_instance

/-- A row of the `tasks` table:
`id INTEGER PRIMARY KEY AUTOINCREMENT, description TEXT NOT NULL,
status TEXT DEFAULT 'pending', snooze_until DATETIME,
created_at DATETIME DEFAULT CURRENT_TIMESTAMP`. -/
structure Task where
  id : Nat
  description : String
  status : String
  snooze_until : Option Int
  created_at : Int
deriving Repr, DecidableEq

/-- The state of the `tasks` table plus its AUTOINCREMENT counter. -/
structure TaskState where
  tasks : List Task
  next_task_id : Nat
deriving Repr, DecidableEq

def TaskState.init : TaskState := ⟨[], 1⟩

/-- `create_task`: builds the description
`f"Test outside camera setup (reasoning: {llm_reasoning or 'weather trigger'})"`
and runs `INSERT INTO tasks (description) VALUES (?) RETURNING id`; the
other columns take their defaults (`status 'pending'`, `snooze_until`
NULL, `created_at` the current instant).  Returns the new state and the
returned id. -/
def create_task (s : TaskState) (now : Int) (llm_reasoning : String) : TaskState × Nat :=
  let description := "Test outside camera setup (reasoning: "
    ++ (if llm_reasoning = "" then "weather trigger" else llm_reasoning) ++ ")"
  ({ tasks := s.tasks ++
      [{ id := s.next_task_id, description := description, status := "pending",
         snooze_until := none, created_at := now }],
     next_task_id := s.next_task_id + 1 },
   s.next_task_id)

/-- The statement
`UPDATE tasks SET status='snoozed', snooze_until=? WHERE id=?` inside
`snooze_task`.  An id matching no row updates nothing and raises
nothing. -/
def snooze_update (s : TaskState) (task_id : Int) (u : Int) : TaskState :=
  { s with tasks := s.tasks.map (fun t =>
      if (t.id : Int) = task_id then
        { t with status := "snoozed", snooze_until := some u }
      else t) }

/-- Python `str.strip()` (as called by `int` on its argument). -/
def pyStrip (cs : List Char) : List Char :=
  ((cs.dropWhile Char.isWhitespace).reverse.dropWhile Char.isWhitespace).reverse

def digitsToNat (cs : List Char) : Nat :=
  cs.foldl (fun n c => n * 10 + (c.toNat - '0'.toNat)) 0

def pyIntDigits (cs : List Char) : Option Int :=
  if cs ≠ [] ∧ cs.all Char.isDigit then some (digitsToNat cs) else none

/-- Python `int(s)` on a string: strips whitespace, allows one sign,
then requires a nonempty run of digits; `none` models the `ValueError`
raised on anything else. -/
def pyInt (s : String) : Option Int :=
  match pyStrip s.toList with
  | '-' :: rest => (pyIntDigits rest).map (fun n => -n)
  | '+' :: rest => pyIntDigits rest
  | t => pyIntDigits t

/-- Python `s.endswith(c)` for a single character `c`. -/
def lastIs (cs : List Char) (c : Char) : Bool := cs.getLast? == some c

/-- The duration parsing of `snooze_task`, in minutes:
`if duration_str.endswith("d"): timedelta(days=int(duration_str[:-1]))`,
`elif duration_str.endswith("h"): timedelta(hours=int(duration_str[:-1]))`,
`else: timedelta(days=1)`.  `none` models the `ValueError` that
`int(...)` raises when the magnitude does not parse. -/
def parse_snooze_delta (duration_str : String) : Option Int :=
  let cs := duration_str.toList
  if lastIs cs 'd' then (pyInt ⟨cs.dropLast⟩).map (fun n => n * 1440)
  else if lastIs cs 'h' then (pyInt ⟨cs.dropLast⟩).map (fun n => n * 60)
  else some 1440

/-- `snooze_task(task_id, duration_str)`: `snooze_until = now + delta`,
then the `UPDATE`.  `none` models an uncaught `ValueError` from the
parse, in which case the `UPDATE` never executes. -/
def snooze_task (s : TaskState) (now : Int) (task_id : Int)
    (duration_str : String) : Option TaskState :=
  (parse_snooze_delta duration_str).map (fun delta => snooze_update s task_id (now + delta))

/-- Python `s.upper()` on the reasoning text. -/
def pyUpper (s : String) : List Char := s.toList.map Char.toUpper

/-- Python substring containment `needle in hay`. -/
def pySubstrIn (needle hay : List Char) : Bool := decide (needle <:+: hay)

/-- The branch guard of check mode:
`"Y" in reasoning.upper() or "YES" in reasoning.upper()`. -/
def decision_affirmed (reasoning : String) : Bool :=
  pySubstrIn ['Y'] (pyUpper reasoning) || pySubstrIn ['Y', 'E', 'S'] (pyUpper reasoning)

/-- The affirmation branch of check mode (lines 148–155): on an affirmed
text create a task (metric `tasks_created` 1), otherwise leave the store
alone (metric `tasks_created` 0). -/
def check_branch (ts : TaskState) (now : Int) (reasoning : String) : TaskState × Nat :=
  if decision_affirmed reasoning then ((create_task ts now reasoning).1, 1)
  else (ts, 0)

/-- The comparator of `ORDER BY created_at DESC`. -/
def created_desc (a b : Task) : Bool := decide (b.created_at ≤ a.created_at)

/-- The `WHERE status IN ('pending', 'snoozed')` filter of the task
report. -/
def open_filter (s : TaskState) : List Task :=
  s.tasks.filter (fun t => t.status == "pending" || t.status == "snoozed")

/-- The task report of check mode:
`SELECT id, status, description FROM tasks WHERE status IN
('pending', 'snoozed') ORDER BY created_at DESC LIMIT 5` (with the
limit as a parameter). -/
def list_open (s : TaskState) (limit : Nat) : List (Nat × String × String) :=
  (((open_filter s).mergeSort created_desc).take limit).map
    (fun t => (t.id, t.status, t.description))

/-- Python truthiness of `args.task_id : Optional[int]`. -/
def truthyInt : Option Int → Bool
  | none => false
  | some i => i != 0

/-- Python truthiness of `args.duration : Optional[str]`. -/
def truthyStr : Option String → Bool
  | none => false
  | some d => d != ""

/-- The snooze-mode dispatch
`elif args.mode == "snooze" and args.task_id and args.duration:
snooze_task(args.task_id, args.duration)`; when the guard fails the
program just closes the connection and exits.  The boolean records
whether the Deferral Handler ran. -/
def snooze_mode_dispatch (mode : String) (task_id : Option Int)
    (duration : Option String) (ts : TaskState) (now : Int) :
    Option TaskState × Bool :=
  if mode == "snooze" && truthyInt task_id && truthyStr duration then
    (snooze_task ts now (task_id.getD 0) (duration.getD ""), true)
  else (some ts, false)

/-- The operations that touch the `tasks` table in scope: `create_task`
(from the affirmation branch) and `snooze_task` (snooze mode). -/
inductive TaskOp where
  | create (now : Int) (reasoning : String)
  | snooze (now : Int) (task_id : Int) (duration_str : String)

/-- Effect of one operation on the `tasks` table; an uncaught
`ValueError` in `snooze_task` aborts the run before its `UPDATE`, so the
table is left as it was. -/
def applyTaskOp (s : TaskState) : TaskOp → TaskState
  | TaskOp.create now r => (create_task s now r).1
  | TaskOp.snooze now tid dur => (snooze_task s now tid dur).getD s

/-- Any sequence of in-scope task operations from an empty `tasks`
table. -/
def runTaskOps (ops : List TaskOp) : TaskState :=
  ops.foldl applyTaskOp TaskState.init

/-- The §3 invariant: `snooze_until` is set iff `status` is
`"snoozed"`. -/
def snoozeInv (s : TaskState) : Prop :=
  ∀ t ∈ s.tasks, (t.snooze_until.isSome ↔ t.status = "snoozed")

theorem count_since_eq_countP (s : WeatherState) (threshold : Rat) (since : Int) :
    count_since s threshold since
      = s.logs.countP (fun o => decide (qualifies threshold since o)) := by
  unfold count_since
  rw [List.countP_eq_length_filter]
  congr 1
  apply List.filter_congr
  intro o _
  simp [qualifies]

/-- C1: the sustained-warmth check is true iff at least `required_count`
observations have value strictly above `threshold` and timestamp strictly
after `now - 30·required_count` minutes; and on the two §8 scenario
stores (threshold 50, required_count 4) it returns `true` for readings
`[52, 55, 60, 65]` and `false` for `[52, 40, 60, 65]`. -/
theorem C1_is_sustained (s : WeatherState) (now : Int) (threshold : Rat)
    (required_count : Nat) (h : 0 < required_count) :
    (check_sustained_warmth s now threshold required_count = true ↔
      required_count ≤
        (s.logs.countP
          (fun o => decide (qualifies threshold (now - 30 * (required_count : Int)) o))))
      ∧ check_sustained_warmth scenarioAllWarm 0 50 4 = true
      ∧ check_sustained_warmth scenarioOneCold 0 50 4 = false := by
  refine ⟨?_, by decide, by decide⟩
  rw [show check_sustained_warmth s now threshold required_count
      = decide (required_count ≤
          count_since s threshold (now - 30 * (required_count : Int))) from rfl]
  rw [count_since_eq_countP]
  simp

theorem C1_is_sustained_witness :
    (0 < 4 ∧
      (check_sustained_warmth scenarioAllWarm 0 50 4 = true ↔
        4 ≤ (scenarioAllWarm.logs.countP
          (fun o => decide (qualifies 50 (0 - 30 * (4 : Int)) o)))))
      ∧ check_sustained_warmth scenarioAllWarm 0 50 4 = true
      ∧ check_sustained_warmth scenarioOneCold 0 50 4 = false :=
  ⟨⟨by decide, (C1_is_sustained scenarioAllWarm 0 50 4 (by decide)).1⟩,
    (C1_is_sustained scenarioAllWarm 0 50 4 (by decide)).2⟩

/-- C5: `count_since` counts exactly the observations with value strictly
above `threshold` and timestamp strictly after `since`; appending an
observation with `timestamp ≤ since` never changes the count, whatever
its value, and appending one with `temp = threshold` never changes the
count, whatever its timestamp. -/
theorem C5_count_since (s : WeatherState) (threshold : Rat) (since : Int) :
    (count_since s threshold since
        = s.logs.countP (fun o => decide (qualifies threshold since o)))
      ∧ (∀ now temp, now ≤ since →
          count_since (record_weather s now temp) threshold since
            = count_since s threshold since)
      ∧ (∀ now, count_since (record_weather s now threshold) threshold since
            = count_since s threshold since) := by
  refine ⟨count_since_eq_countP s threshold since, ?_, ?_⟩
  · intro now temp hle
    unfold count_since record_weather
    simp only [List.filter_append, List.length_append]
    have : ¬ (since < now) := not_lt.mpr hle
    simp [this]
  · intro now
    unfold count_since record_weather
    simp only [List.filter_append, List.length_append]
    simp

theorem C5_count_since_witness :
    count_since (record_weather scenarioAllWarm (-150) 99) 50 (-120)
      = count_since scenarioAllWarm 50 (-120) :=
  (C5_count_since scenarioAllWarm 50 (-120)).2.1 (-150) 99 (by decide)

/-- C2: the Decision Gate affirms a reasoning text iff its uppercasing
contains the substring `"Y"` (the `"YES"` disjunct is redundant);
`"No, conditions are fine."` is not affirmed, `"Yes, test it"` is, and
the affirmation branch creates exactly one task when the text is
affirmed and none otherwise. -/
theorem C2_affirmation (reasoning : String) (ts : TaskState) (now : Int) :
    (decision_affirmed reasoning = true ↔ ['Y'] <:+: pyUpper reasoning)
      ∧ decision_affirmed "No, conditions are fine." = false
      ∧ decision_affirmed "Yes, test it" = true
      ∧ (check_branch ts now reasoning).1.tasks.length
          = ts.tasks.length + (if decision_affirmed reasoning = true then 1 else 0) := by
  refine ⟨?_, by decide, by decide, ?_⟩
  · unfold decision_affirmed pySubstrIn
    constructor
    · intro h
      simp only [Bool.or_eq_true] at h
      rcases h with h1 | h2
      · exact of_decide_eq_true h1
      · exact List.IsInfix.trans ⟨[], ['E', 'S'], rfl⟩ (of_decide_eq_true h2)
    · intro h
      simp only [Bool.or_eq_true]
      exact Or.inl (decide_eq_true h)
  · cases hb : decision_affirmed reasoning <;>
      simp [check_branch, hb, create_task]

theorem C2_affirmation_witness :
    decision_affirmed "Yes, test it" = true :=
  (C2_affirmation "Yes, test it" TaskState.init 0).2.2.1

theorem record_weather_cm (inputs : List (Int × Rat)) :
    ∀ (s : WeatherState), (∀ o ∈ s.logs, o.condition_met = 0) →
      ∀ o ∈ (inputs.foldl (fun s p => record_weather s p.1 p.2) s).logs,
        o.condition_met = 0 := by
  induction inputs with
  | nil => intro s hs; simpa using hs
  | cons p rest ih =>
    intro s hs
    refine ih (record_weather s p.1 p.2) ?_
    intro o ho
    rcases List.mem_append.mp ho with h | h
    · exact hs o h
    · simp only [List.mem_singleton] at h
      subst h
      rfl

/-- C9: every observation in the log of any run of recordings has its
`condition_met` flag equal to 0, and a single `record` only ever appends
an observation with `condition_met = 0`. -/
theorem C9_condition_met (inputs : List (Int × Rat)) :
    (∀ o ∈ (runWeather inputs).logs, o.condition_met = 0)
      ∧ (∀ (s : WeatherState) (now : Int) (temp : Rat),
          ∀ o ∈ (record_weather s now temp).logs,
            o ∈ s.logs ∨ o.condition_met = 0) := by
  constructor
  · exact record_weather_cm inputs WeatherState.init (by intro o ho; simp [WeatherState.init] at ho)
  · intro s now temp o ho
    rcases List.mem_append.mp ho with h | h
    · exact Or.inl h
    · simp only [List.mem_singleton] at h
      subst h
      exact Or.inr rfl

theorem C9_condition_met_witness :
    (⟨1, -10, 60, 0⟩ : Observation).condition_met = 0 :=
  (C9_condition_met [(-10, 60)]).1 ⟨1, -10, 60, 0⟩ (by decide)

/-- C8: the snooze `UPDATE` touches only the `status` and `snooze_until`
columns of the row with the given id: pointwise over the store, ids,
descriptions and creation instants are preserved, any row with a
different id is wholly unchanged, and the AUTOINCREMENT counter is
untouched. -/
theorem C8_snooze_frame (s : TaskState) (tid u : Int) :
    List.Forall₂ (fun t t' =>
        t'.id = t.id ∧ t'.description = t.description ∧ t'.created_at = t.created_at
          ∧ ((t.id : Int) ≠ tid → t' = t)
          ∧ ((t.id : Int) = tid → t'.status = "snoozed" ∧ t'.snooze_until = some u))
      s.tasks (snooze_update s tid u).tasks
      ∧ (snooze_update s tid u).next_task_id = s.next_task_id := by
  constructor
  · unfold snooze_update
    simp only
    rw [List.forall₂_map_right_iff, List.forall₂_same]
    intro t ht
    by_cases h : (t.id : Int) = tid <;> simp [h]
  · rfl

theorem C8_snooze_frame_witness :
    List.Forall₂ (fun t t' =>
        t'.id = t.id ∧ t'.description = t.description ∧ t'.created_at = t.created_at
          ∧ ((t.id : Int) ≠ 1 → t' = t)
          ∧ ((t.id : Int) = 1 → t'.status = "snoozed" ∧ t'.snooze_until = some 9))
      (⟨[⟨1, "d", "pending", none, 0⟩], 2⟩ : TaskState).tasks
      (snooze_update ⟨[⟨1, "d", "pending", none, 0⟩], 2⟩ 1 9).tasks :=
  (C8_snooze_frame ⟨[⟨1, "d", "pending", none, 0⟩], 2⟩ 1 9).1

/-- C3 counterexample: on input `"xd"` — malformed input ending in the
`'d'` unit — `snooze_task` raises (`int("x")` is a `ValueError`, modelled
as `none`) instead of falling back to 1 day, so the fallback does not
cover every malformed input and `snooze_task` can fail on parsing. -/
theorem C3_snooze_parse_cex :
    parse_snooze_delta "xd" = none
      ∧ snooze_task TaskState.init 0 1 "xd" = none := by
  exact ⟨by decide, by decide⟩

/-- C3 amended: a `'d'` suffix with an integer magnitude gives that many
days, an `'h'` suffix with an integer magnitude gives that many hours,
and any input not ending in `'d'` or `'h'` (such as `"xyz"`) falls back
to exactly 1 day; the snooze-until instant is `now` plus the parsed
duration (`"1d"` gives `now + 1` day, `"3h"` gives `now + 3` hours).
But an input ending in `'d'` or `'h'` whose magnitude part is not a
valid integer makes `snooze_task` raise a parse error instead of
falling back. -/
theorem C3_snooze_parse (s : TaskState) (now tid : Int) (dur : String) (n : Int) :
    snooze_task s now tid "1d" = some (snooze_update s tid (now + 1440))
      ∧ snooze_task s now tid "3h" = some (snooze_update s tid (now + 180))
      ∧ snooze_task s now tid "xyz" = some (snooze_update s tid (now + 1440))
      ∧ (lastIs dur.toList 'd' = false → lastIs dur.toList 'h' = false →
          snooze_task s now tid dur = some (snooze_update s tid (now + 1440)))
      ∧ (lastIs dur.toList 'd' = true → pyInt ⟨dur.toList.dropLast⟩ = some n →
          snooze_task s now tid dur = some (snooze_update s tid (now + n * 1440)))
      ∧ (lastIs dur.toList 'h' = true → pyInt ⟨dur.toList.dropLast⟩ = some n →
          snooze_task s now tid dur = some (snooze_update s tid (now + n * 60))) := by
  have h1 : parse_snooze_delta "1d" = some 1440 := by decide
  have h2 : parse_snooze_delta "3h" = some 180 := by decide
  have h3 : parse_snooze_delta "xyz" = some 1440 := by decide
  refine ⟨by simp [snooze_task, h1], by simp [snooze_task, h2],
    by simp [snooze_task, h3], ?_, ?_, ?_⟩
  · intro hd hh
    simp only [String.toList] at hd hh
    simp [snooze_task, parse_snooze_delta, hd, hh]
  · intro hd hp
    simp only [String.toList] at hd hp
    simp [snooze_task, parse_snooze_delta, hd, hp]
  · intro hh hp
    by_cases hdd : lastIs dur.toList 'd' = true
    · simp [lastIs] at hh hdd
      simp [hdd] at hh
    · rw [Bool.not_eq_true] at hdd
      simp only [String.toList] at hdd hh hp
      simp [snooze_task, parse_snooze_delta, hdd, hh, hp]

theorem C3_snooze_parse_witness :
    snooze_task TaskState.init 0 1 "17d"
      = some (snooze_update TaskState.init 1 (0 + 17 * 1440)) :=
  (C3_snooze_parse TaskState.init 0 1 "17d" 17).2.2.2.2.1 (by decide) (by decide)

/-- C4 counterexample: snoozing a task id absent from the store does not
fail at all — the `UPDATE ... WHERE id=?` matches nothing, the call
returns normally (`some`, not an error) and the store is unchanged, so
there is no `NotFoundError`. -/
theorem C4_snooze_missing_cex :
    snooze_task TaskState.init 0 42 "1d" = some TaskState.init := by decide

/-- C4 amended: snoozing an id that matches no task succeeds silently
and leaves the task store unchanged (no error of any kind is raised,
in particular no `NotFoundError`, and no record is created or
modified); snoozing an id that does exist sets that task's status to
`"snoozed"` and its snooze-until to `until`. -/
theorem C4_snooze_missing (s : TaskState) (tid u now : Int) (dur : String) :
    ((∀ t ∈ s.tasks, (t.id : Int) ≠ tid) →
        snooze_update s tid u = s
          ∧ ∀ delta, parse_snooze_delta dur = some delta →
              snooze_task s now tid dur = some s)
      ∧ (∀ t ∈ s.tasks, (t.id : Int) = tid →
          { t with status := "snoozed", snooze_until := some u }
            ∈ (snooze_update s tid u).tasks) := by
  constructor
  · intro hmiss
    have hupd : ∀ u', snooze_update s tid u' = s := by
      intro u'
      unfold snooze_update
      have : s.tasks.map (fun t =>
          if (t.id : Int) = tid then
            { t with status := "snoozed", snooze_until := some u' }
          else t) = s.tasks.map id := by
        apply List.map_congr_left
        intro t ht
        simp [hmiss t ht]
      rw [this, List.map_id]
    refine ⟨hupd u, ?_⟩
    intro delta hdelta
    simp [snooze_task, hdelta, hupd]
  · intro t ht hid
    have : { t with status := "snoozed", snooze_until := some u }
        = (fun t =>
            if (t.id : Int) = tid then
              { t with status := "snoozed", snooze_until := some u }
            else t) t := by
      simp [hid]
    rw [this]
    exact List.mem_map_of_mem _ ht

theorem C4_snooze_missing_witness :
    snooze_task (⟨[⟨1, "d", "pending", none, 0⟩], 2⟩ : TaskState) 0 42 "1d"
      = some ⟨[⟨1, "d", "pending", none, 0⟩], 2⟩ :=
  ((C4_snooze_missing ⟨[⟨1, "d", "pending", none, 0⟩], 2⟩ 42 7 0 "1d").1
    (by decide)).2 1440 (by decide)

/-- C6: with limit 5 the task report contains only rows whose status is
`"pending"` or `"snoozed"`, contains at most 5 rows, and the selected
tasks are ordered by creation instant, most recent first. -/
theorem C6_list_open (s : TaskState) :
    (list_open s 5).length ≤ 5
      ∧ (∀ x ∈ list_open s 5, x.2.1 = "pending" ∨ x.2.1 = "snoozed")
      ∧ List.Pairwise (fun a b => b.created_at ≤ a.created_at)
          (((open_filter s).mergeSort created_desc).take 5) := by
  refine ⟨?_, ?_, ?_⟩
  · unfold list_open
    rw [List.length_map]
    exact List.length_take_le 5 _
  · intro x hx
    unfold list_open at hx
    rcases List.mem_map.mp hx with ⟨t, ht, rfl⟩
    have ht' : t ∈ (open_filter s).mergeSort created_desc :=
      List.take_subset _ _ ht
    have ht'' : t ∈ open_filter s :=
      ((List.mergeSort_perm _ _).mem_iff).mp ht'
    have hstat := (List.mem_filter.mp ht'').2
    simp only [Bool.or_eq_true, beq_iff_eq] at hstat
    simpa using hstat
  · have htrans : ∀ a b c : Task, created_desc a b = true →
        created_desc b c = true → created_desc a c = true := by
      intro a b c hab hbc
      exact decide_eq_true (le_trans (of_decide_eq_true hbc) (of_decide_eq_true hab))
    have htotal : ∀ a b : Task, (created_desc a b || created_desc b a) = true := by
      intro a b
      simp only [Bool.or_eq_true]
      rcases le_total a.created_at b.created_at with h | h
      · exact Or.inr (decide_eq_true h)
      · exact Or.inl (decide_eq_true h)
    have hs := List.sorted_mergeSort htrans htotal (open_filter s)
    have hp : List.Pairwise (fun a b : Task => b.created_at ≤ a.created_at)
        ((open_filter s).mergeSort created_desc) := by
      refine List.Pairwise.imp ?_ hs
      intro a b h
      exact of_decide_eq_true h
    exact List.Pairwise.sublist (List.take_sublist 5 _) hp

theorem C6_list_open_witness :
    (list_open (⟨[⟨1, "d", "pending", none, 0⟩], 2⟩ : TaskState) 5).length ≤ 5 :=
  (C6_list_open ⟨[⟨1, "d", "pending", none, 0⟩], 2⟩).1

theorem snoozeInv_create (s : TaskState) (now : Int) (r : String)
    (h : snoozeInv s) : snoozeInv (create_task s now r).1 := by
  intro t ht
  rcases List.mem_append.mp ht with hm | hm
  · exact h t hm
  · simp only [List.mem_singleton] at hm
    subst hm
    simp

theorem snoozeInv_update (s : TaskState) (tid u : Int)
    (h : snoozeInv s) : snoozeInv (snooze_update s tid u) := by
  intro t ht
  rcases List.mem_map.mp ht with ⟨t0, ht0, rfl⟩
  by_cases hid : (t0.id : Int) = tid
  · simp [hid]
  · simpa [hid] using h t0 ht0

theorem snoozeInv_apply (s : TaskState) (op : TaskOp)
    (h : snoozeInv s) : snoozeInv (applyTaskOp s op) := by
  cases op with
  | create now r => exact snoozeInv_create s now r h
  | snooze now tid dur =>
    cases hp : parse_snooze_delta dur with
    | none => simpa [applyTaskOp, snooze_task, hp] using h
    | some delta =>
      have : applyTaskOp s (TaskOp.snooze now tid dur)
          = snooze_update s tid (now + delta) := by
        simp [applyTaskOp, snooze_task, hp]
      rw [this]
      exact snoozeInv_update s tid (now + delta) h

theorem snoozeInv_foldl (ops : List TaskOp) :
    ∀ s, snoozeInv s → snoozeInv (ops.foldl applyTaskOp s) := by
  induction ops with
  | nil => intro s hs; simpa using hs
  | cons op rest ih =>
    intro s hs
    exact ih (applyTaskOp s op) (snoozeInv_apply s op hs)

/-- C7: after any sequence of in-scope operations from an empty store,
every task satisfies "snooze-until is set iff status is `snoozed`";
`create_task` appends a task with status `"pending"` and `snooze_until`
unset, and the snooze `UPDATE` — the only statement writing
`snooze_until` — sets `status='snoozed'` in the same statement on every
row it touches. -/
theorem C7_snooze_invariant (ops : List TaskOp) (s : TaskState) (now : Int)
    (r : String) (tid u : Int) :
    snoozeInv (runTaskOps ops)
      ∧ (∀ t ∈ (create_task s now r).1.tasks.drop s.tasks.length,
          t.status = "pending" ∧ t.snooze_until = none)
      ∧ (∀ t ∈ (snooze_update s tid u).tasks, (t.id : Int) = tid →
          t.status = "snoozed" ∧ t.snooze_until = some u) := by
  refine ⟨?_, ?_, ?_⟩
  · exact snoozeInv_foldl ops TaskState.init
      (by intro t ht; simp [TaskState.init] at ht)
  · intro t ht
    rw [show (create_task s now r).1.tasks = s.tasks ++
        [{ id := s.next_task_id,
           description := "Test outside camera setup (reasoning: "
             ++ (if r = "" then "weather trigger" else r) ++ ")",
           status := "pending", snooze_until := none,
           created_at := now }] from rfl] at ht
    rw [show s.tasks.length = s.tasks.length + 0 from rfl,
      List.drop_append 0] at ht
    simp only [List.drop_zero, List.mem_singleton] at ht
    subst ht
    exact ⟨rfl, rfl⟩
  · intro t ht hid
    rcases List.mem_map.mp ht with ⟨t0, _, rfl⟩
    by_cases h0 : (t0.id : Int) = tid
    · simp [h0]
    · simp only [if_neg h0] at hid ⊢
      exact absurd hid h0

theorem C7_snooze_invariant_witness :
    ((⟨1, "Test outside camera setup (reasoning: r)", "pending", none, 0⟩ :
        Task).snooze_until.isSome
      ↔ (⟨1, "Test outside camera setup (reasoning: r)", "pending", none, 0⟩ :
        Task).status = "snoozed") :=
  (C7_snooze_invariant [TaskOp.create 0 "r"] TaskState.init 0 "" 1 2).1
    ⟨1, "Test outside camera setup (reasoning: r)", "pending", none, 0⟩
    (by decide)

/-- C10: in snooze mode, with a task id of 0 or absent, or an absent
duration, the guard fails: the store is untouched, nothing fails, and
the Deferral Handler does not run; conversely the handler runs only
when a non-zero task id and a duration are both supplied. -/
theorem C10_snooze_dispatch (ts : TaskState) (now : Int)
    (task_id : Option Int) (duration : Option String) :
    ((task_id = none ∨ task_id = some 0 ∨ duration = none) →
        snooze_mode_dispatch "snooze" task_id duration ts now = (some ts, false))
      ∧ ((snooze_mode_dispatch "snooze" task_id duration ts now).2 = true →
          ∃ i d, task_id = some i ∧ i ≠ 0 ∧ duration = some d) := by
  constructor
  · intro h
    rcases h with h | h | h <;> subst h <;>
      simp [snooze_mode_dispatch, truthyInt, truthyStr]
  · intro h
    cases hti : truthyInt task_id with
    | false => simp [snooze_mode_dispatch, hti] at h
    | true =>
      cases htd : truthyStr duration with
      | false => simp [snooze_mode_dispatch, htd] at h
      | true =>
        cases task_id with
        | none => simp [truthyInt] at hti
        | some i =>
          cases duration with
          | none => simp [truthyStr] at htd
          | some d =>
            refine ⟨i, d, rfl, ?_, rfl⟩
            simpa [truthyInt] using hti

theorem C10_snooze_dispatch_witness :
    snooze_mode_dispatch "snooze" none none TaskState.init 0
      = (some TaskState.init, false) :=
  (C10_snooze_dispatch TaskState.init 0 none none).1 (Or.inl rfl)

end Smartcal
